import Mathlib

/-
  Shallow embedding of the kaiquest-treasury Solana program
  (src/program/src/lib.rs) and proofs about its specification claims.

  External collaborators (address derivation, rent, the system program's
  account-creation CPI, SPL-token unpack/transfer) are abstracted into an
  `Env` record of functions; the handlers are translated from the source
  line by line on top of it.
-/

namespace KaiquestTreasury

/-- A byte, as stored in account data and instruction buffers. -/
abbrev Byte := Fin 256

/-- A Solana public key: exactly 32 raw bytes (`solana_program::pubkey::Pubkey`). -/
def Pubkey := { l : List Byte // l.length = 32 }

instance : DecidableEq Pubkey :=
  inferInstanceAs (DecidableEq { l : List Byte // l.length = 32 })

/-- The slice of an `AccountInfo` that the program consults: its address,
its lamport balance, its data bytes and its signer flag. -/
structure AccountInfo where
  key : Pubkey
  lamports : Nat
  data : List Byte
  isSigner : Bool

/-- The `ProgramError` variants this program can produce or propagate.
`Other n` stands for any error value propagated unchanged from an external
primitive (account creation CPI, token-transfer CPI, rent sysvar). -/
inductive ProgramError where
  | InvalidInstructionData
  | InvalidSeeds
  | AccountAlreadyInitialized
  | UninitializedAccount
  | InvalidAccountData
  | IllegalOwner
  | MissingRequiredSignature
  | NotEnoughAccountKeys
  | BorshIoError
  | IncorrectProgramId
  | Other (n : Nat)
deriving DecidableEq, Repr

/-- The bytes of the fixed seed `b"treasury"` (ASCII). -/
def treasurySeed : List Byte := [116, 114, 101, 97, 115, 117, 114, 121]

/-- The bytes of the fixed seed `b"config"` (ASCII). -/
def configSeed : List Byte := [99, 111, 110, 102, 105, 103]

/-- The part of an unpacked SPL token account that the program consults:
its recorded controller (`spl_token::state::Account::owner`). -/
structure TokenAccountRec where
  owner : Pubkey
deriving DecidableEq

/-- The arguments of the token-transfer CPI issued at the end of `process_claim`:
`token_instruction::transfer(token_program, source, destination, authority, [], amount)`
invoked with signer seeds `[b"treasury", [bump]]`. -/
structure TransferParams where
  tokenProgram : Pubkey
  source : Pubkey
  destination : Pubkey
  authority : Pubkey
  amount : Nat
  bump : Byte
deriving DecidableEq

/-- The external collaborators of the program, with the contracts stated in
the spec: PDA derivation (`Pubkey::find_program_address`), the rent sysvar
(`Rent::get` / `minimum_balance`), the system-program account-creation CPI,
SPL token-account unpacking, the SPL transfer instruction builder (which
checks the token program id) and the transfer CPI itself.  All are
arbitrary functions; theorems quantify over them. -/
structure Env where
  findProgramAddress : List Byte → Pubkey → Pubkey × Byte
  rentResult : Except ProgramError (Nat → Nat)
  createAccount : Pubkey → Pubkey → Nat → Nat → Pubkey → List Byte → Byte →
    Except ProgramError Unit
  unpackTokenAccount : List Byte → Option TokenAccountRec
  buildTransfer : Pubkey → Except ProgramError Unit
  invokeTransfer : TransferParams → Except ProgramError Unit

/-- `std::mem::size_of::<TreasuryConfig>()`: one `Pubkey`, 32 bytes. -/
def SIZE_TREASURY_CONFIG : Nat := 32

/-- `std::mem::size_of::<TreasuryState>()`: one `u64`, 8 bytes. -/
def SIZE_TREASURY_STATE : Nat := 8

/-- The stored `TreasuryConfig` record: the owner public key. -/
structure TreasuryConfigRec where
  owner : Pubkey
deriving DecidableEq

/-- Borsh `TreasuryConfig::try_from_slice`: deserializing the record consumes
exactly 32 bytes (the `Pubkey`), and `try_from_slice` additionally requires
that the whole input is consumed, so it succeeds exactly on 32-byte inputs. -/
def TreasuryConfigRec.tryFromSlice (d : List Byte) : Option TreasuryConfigRec :=
  if h : d.length = 32 then some ⟨⟨d, h⟩⟩ else none

/-- Borsh-serialize `TreasuryConfig { owner }` into a mutable byte buffer
(`config.serialize(&mut &mut config_data[..])`): writes the 32 key bytes at
the start, leaves the rest, fails if the buffer is shorter than 32 bytes. -/
def serializeConfigInto (owner : Pubkey) (buf : List Byte) : Option (List Byte) :=
  if 32 ≤ buf.length then some (owner.val ++ buf.drop 32) else none

/-- `config_data[..32].try_into()` followed by `Pubkey::new_from_array`:
the first 32 bytes of the config payload, as a key; fails (mapped to
`InvalidAccountData`) when fewer than 32 bytes are available. -/
def ownerBytes32 (d : List Byte) : Option Pubkey :=
  if h : (d.take 32).length = 32 then some ⟨d.take 32, h⟩ else none

/-- The decoded instruction enum `TreasuryInstruction`. -/
inductive TreasuryInstruction where
  | Initialize
  | Claim (amount : Nat)
deriving DecidableEq, Repr

/-- Value of a little-endian byte list (Borsh `u64` field encoding). -/
def leU64 (l : List Byte) : Nat :=
  l.foldr (fun b acc => b.val + 256 * acc) 0

/-- Borsh `TreasuryInstruction::try_from_slice`: a one-byte variant tag
(0 = Initialize, 1 = Claim) followed by the variant's fields (Claim carries
a little-endian `u64`), with the whole input required to be consumed. -/
def TreasuryInstruction.tryFromSlice (d : List Byte) : Option TreasuryInstruction :=
  match d with
  | [] => none
  | tag :: rest =>
    if tag.val = 0 then
      if rest.isEmpty then some .Initialize else none
    else if tag.val = 1 then
      if rest.length = 8 then some (.Claim (leU64 rest)) else none
    else none

/-- The two accounts whose state `processInitialize` establishes on success:
the post-states of the treasury PDA account and the config PDA account. -/
structure InitOk where
  treasury : AccountInfo
  config : AccountInfo

/-- The fall-through tail of `processInitialize` (lines 82-125): create the
treasury account (zero-filled by the system program at the requested size),
create the config account likewise, then Borsh-write `TreasuryConfig
{ owner: *payer.key }` into the fresh config data. -/
def initCreate (env : Env) (programId : Pubkey)
    (payer treasuryPda configAccount : AccountInfo) (minimumBalance : Nat → Nat)
    (treasuryBump configBump : Byte) : Except ProgramError InitOk :=
  let treasurySpace := 8 + SIZE_TREASURY_STATE
  match env.createAccount payer.key treasuryPda.key (minimumBalance treasurySpace)
      treasurySpace programId treasurySeed treasuryBump with
  | .error e => .error e
  | .ok _ =>
    let treasuryAfter : AccountInfo :=
      { key := treasuryPda.key, lamports := minimumBalance treasurySpace,
        data := List.replicate treasurySpace 0, isSigner := treasuryPda.isSigner }
    let configSpace := 8 + SIZE_TREASURY_CONFIG
    match env.createAccount payer.key configAccount.key (minimumBalance configSpace)
        configSpace programId configSeed configBump with
    | .error e => .error e
    | .ok _ =>
      match serializeConfigInto payer.key (List.replicate configSpace 0) with
      | none => .error .BorshIoError
      | some written =>
        .ok { treasury := treasuryAfter,
              config := { key := configAccount.key,
                          lamports := minimumBalance configSpace,
                          data := written, isSigner := configAccount.isSigner } }

/-- `processInitialize` (lib.rs lines 49-126): accounts are
payer, treasury PDA, system program, config PDA; validate both PDAs against
derivation, reject an already-initialized config, then create and write. -/
def processInitialize (env : Env) (programId : Pubkey)
    (accounts : List AccountInfo) : Except ProgramError InitOk :=
  match accounts with
  | payer :: treasuryPda :: _systemProgram :: configAccount :: _ =>
    let derivedTreasury := env.findProgramAddress treasurySeed programId
    if derivedTreasury.1 ≠ treasuryPda.key then .error .InvalidSeeds
    else
      let derivedConfig := env.findProgramAddress configSeed programId
      if derivedConfig.1 ≠ configAccount.key then .error .InvalidSeeds
      else
        match env.rentResult with
        | .error e => .error e
        | .ok minimumBalance =>
          if 0 < configAccount.lamports then
            if SIZE_TREASURY_CONFIG ≤ configAccount.data.length then
              match TreasuryConfigRec.tryFromSlice configAccount.data with
              | none => .error .InvalidAccountData
              | some _ => .error .AccountAlreadyInitialized
            else
              initCreate env programId payer treasuryPda configAccount
                minimumBalance derivedTreasury.2 derivedConfig.2
          else
            initCreate env programId payer treasuryPda configAccount
              minimumBalance derivedTreasury.2 derivedConfig.2
  | _ => .error .NotEnoughAccountKeys

/-- `process_claim` (lib.rs lines 128-222): accounts are user, user token
account, treasury token account, token program, treasury PDA, owner, config.
The second component records the token-transfer CPI that was issued
(`none` when the handler returned before reaching it). -/
def process_claim (env : Env) (programId : Pubkey) (accounts : List AccountInfo)
    (amount : Nat) : Except ProgramError Unit × Option TransferParams :=
  match accounts with
  | _user :: userTokenAccount :: treasuryTokenAccount :: tokenProgram ::
      treasuryPda :: owner :: configAccount :: _ =>
    let derivedTreasury := env.findProgramAddress treasurySeed programId
    if derivedTreasury.1 ≠ treasuryPda.key then (.error .InvalidSeeds, none)
    else if configAccount.lamports = 0 then (.error .UninitializedAccount, none)
    else if configAccount.data.length < SIZE_TREASURY_CONFIG then
      (.error .InvalidAccountData, none)
    else if configAccount.lamports = 0 then (.error .UninitializedAccount, none)
    else if configAccount.data.length < SIZE_TREASURY_CONFIG then
      (.error .InvalidAccountData, none)
    else
      match ownerBytes32 configAccount.data with
      | none => (.error .InvalidAccountData, none)
      | some storedOwner =>
        if storedOwner ≠ owner.key then (.error .IllegalOwner, none)
        else if !owner.isSigner then (.error .MissingRequiredSignature, none)
        else
          match env.unpackTokenAccount treasuryTokenAccount.data with
          | none => (.error .InvalidAccountData, none)
          | some tokenInfo =>
            if tokenInfo.owner ≠ treasuryPda.key then (.error .IllegalOwner, none)
            else
              match env.buildTransfer tokenProgram.key with
              | .error e => (.error e, none)
              | .ok _ =>
                let params : TransferParams :=
                  { tokenProgram := tokenProgram.key,
                    source := treasuryTokenAccount.key,
                    destination := userTokenAccount.key,
                    authority := treasuryPda.key,
                    amount := amount, bump := derivedTreasury.2 }
                match env.invokeTransfer params with
                | .error e => (.error e, some params)
                | .ok _ => (.ok (), some params)
  | _ => (.error .NotEnoughAccountKeys, none)

/-- Map an Initialize result to the dispatcher's result type: the source
handler returns `Ok(())`, the embedding's success value additionally records
the produced account states; Initialize issues no token transfer. -/
def initResult (r : Except ProgramError InitOk) :
    Except ProgramError Unit × Option TransferParams :=
  (r.map fun _ => (), none)

/-- `process_instruction` (lib.rs lines 35-47): Borsh-decode the instruction
data (failure becomes `InvalidInstructionData`) and route to the handler. -/
def process_instruction (env : Env) (programId : Pubkey)
    (accounts : List AccountInfo) (instructionData : List Byte) :
    Except ProgramError Unit × Option TransferParams :=
  match TreasuryInstruction.tryFromSlice instructionData with
  | none => (.error .InvalidInstructionData, none)
  | some .Initialize => initResult (processInitialize env programId accounts)
  | some (.Claim amount) => process_claim env programId accounts amount

/-- The single-check variant of the claim handler demanded by the spec's
design note: the config existence check (`lamports == 0`) and the payload
length check are performed once instead of twice; everything else is
identical to `process_claim`. -/
def process_claim_single_check (env : Env) (programId : Pubkey)
    (accounts : List AccountInfo) (amount : Nat) :
    Except ProgramError Unit × Option TransferParams :=
  match accounts with
  | _user :: userTokenAccount :: treasuryTokenAccount :: tokenProgram ::
      treasuryPda :: owner :: configAccount :: _ =>
    let derivedTreasury := env.findProgramAddress treasurySeed programId
    if derivedTreasury.1 ≠ treasuryPda.key then (.error .InvalidSeeds, none)
    else if configAccount.lamports = 0 then (.error .UninitializedAccount, none)
    else if configAccount.data.length < SIZE_TREASURY_CONFIG then
      (.error .InvalidAccountData, none)
    else
      match ownerBytes32 configAccount.data with
      | none => (.error .InvalidAccountData, none)
      | some storedOwner =>
        if storedOwner ≠ owner.key then (.error .IllegalOwner, none)
        else if !owner.isSigner then (.error .MissingRequiredSignature, none)
        else
          match env.unpackTokenAccount treasuryTokenAccount.data with
          | none => (.error .InvalidAccountData, none)
          | some tokenInfo =>
            if tokenInfo.owner ≠ treasuryPda.key then (.error .IllegalOwner, none)
            else
              match env.buildTransfer tokenProgram.key with
              | .error e => (.error e, none)
              | .ok _ =>
                let params : TransferParams :=
                  { tokenProgram := tokenProgram.key,
                    source := treasuryTokenAccount.key,
                    destination := userTokenAccount.key,
                    authority := treasuryPda.key,
                    amount := amount, bump := derivedTreasury.2 }
                match env.invokeTransfer params with
                | .error e => (.error e, some params)
                | .ok _ => (.ok (), some params)
  | _ => (.error .NotEnoughAccountKeys, none)

/-! ### Concrete fixtures used by witnesses and counterexamples -/

/-- A concrete key whose 32 bytes all equal `b`. -/
def pkConst (b : Byte) : Pubkey := ⟨List.replicate 32 b, by simp⟩

/-- The Borsh enum tag byte of `Initialize`. -/
def tag0 : Byte := ⟨0, by norm_num⟩

/-- The Borsh enum tag byte of `Claim`. -/
def tag1 : Byte := ⟨1, by norm_num⟩

/-- A concrete bump byte. -/
def bumpA : Byte := ⟨255, by norm_num⟩

/-- Another concrete bump byte. -/
def bumpB : Byte := ⟨254, by norm_num⟩

/-- A concrete environment: the treasury PDA derives to `pkConst 7` with bump
255, the config PDA to `pkConst 9` with bump 254; rent is 10 lamports per
byte; CPIs succeed; unpacking a token account reads its first 32 data bytes
as the recorded controller. -/
def envA : Env where
  findProgramAddress := fun seed _ =>
    if seed = treasurySeed then (pkConst 7, bumpA) else (pkConst 9, bumpB)
  rentResult := .ok fun space => space * 10
  createAccount := fun _ _ _ _ _ _ _ => .ok ()
  unpackTokenAccount := fun d => (ownerBytes32 d).map TokenAccountRec.mk
  buildTransfer := fun _ => .ok ()
  invokeTransfer := fun _ => .ok ()

def programIdA : Pubkey := pkConst 1

def payerA : AccountInfo := ⟨pkConst 2, 1000, [], true⟩

/-- The payer account with its signer flag cleared. -/
def payerUnsigned : AccountInfo := ⟨pkConst 2, 1000, [], false⟩

def treasuryFresh : AccountInfo := ⟨pkConst 7, 0, [], false⟩

def systemA : AccountInfo := ⟨pkConst 11, 1, [], false⟩

def configFresh : AccountInfo := ⟨pkConst 9, 0, [], false⟩

/-- The account states a successful Initialize under `envA` produces:
a 16-byte zero-filled treasury and a 40-byte config whose first 32 bytes
are the payer's key. -/
def initOkA : InitOk where
  treasury := ⟨pkConst 7, 160, List.replicate 16 0, false⟩
  config := ⟨pkConst 9, 400, (pkConst 2).val ++ List.replicate 8 0, false⟩

def userA : AccountInfo := ⟨pkConst 2, 5, [], true⟩

def userTokenA : AccountInfo := ⟨pkConst 3, 5, [], false⟩

/-- A vault account whose recorded controller (under `envA`) is the derived
treasury PDA `pkConst 7`. -/
def vaultGood : AccountInfo := ⟨pkConst 4, 5, List.replicate 32 7, false⟩

def tokenProgA : AccountInfo := ⟨pkConst 5, 1, [], false⟩

def treasuryPdaA : AccountInfo := ⟨pkConst 7, 160, List.replicate 16 0, false⟩

def ownerSigned : AccountInfo := ⟨pkConst 2, 5, [], true⟩

def configInited : AccountInfo := ⟨pkConst 9, 400, (pkConst 2).val ++ List.replicate 8 0, false⟩

/-- An account with the initialized config's payload but at an address that
is NOT the derived config address `pkConst 9`. -/
def configWrongAddr : AccountInfo := ⟨pkConst 8, 400, (pkConst 2).val ++ List.replicate 8 0, false⟩

/-! ### Helper lemmas -/

lemma ownerBytes32_of_le (d : List Byte) (h : SIZE_TREASURY_CONFIG ≤ d.length) :
    ownerBytes32 d = some ⟨d.take 32, by
      rw [List.length_take]
      unfold SIZE_TREASURY_CONFIG at h
      omega⟩ := by
  unfold ownerBytes32
  rw [dif_pos]

/-! ### C2: wrong supplied owner is rejected with IllegalOwner -/

/-- C2: whenever Claim is given the derived treasury address, a funded config
account whose payload is at least a Config record, and the first 32 payload
bytes (the stored owner) differ from the supplied owner account's key, the
handler fails with `IllegalOwner` and issues no transfer — with no assumption
at all on the supplied owner's signer flag. -/
theorem claim_wrong_owner_illegal_owner (env : Env) (pid : Pubkey)
    (u uta tta tp tPda ow cfg : AccountInfo) (rest : List AccountInfo) (amount : Nat)
    (h1 : (env.findProgramAddress treasurySeed pid).1 = tPda.key)
    (h2 : cfg.lamports ≠ 0)
    (h3 : SIZE_TREASURY_CONFIG ≤ cfg.data.length)
    (h4 : cfg.data.take 32 ≠ ow.key.val) :
    process_claim env pid (u :: uta :: tta :: tp :: tPda :: ow :: cfg :: rest) amount
      = (.error .IllegalOwner, none) := by
  simp only [process_claim]
  rw [if_neg (not_not_intro h1), if_neg h2, if_neg (Nat.not_lt.mpr h3), if_neg h2,
    if_neg (Nat.not_lt.mpr h3)]
  simp only [ownerBytes32_of_le _ h3]
  rw [if_pos (fun he => h4 (congrArg Subtype.val he))]

/-- C2 witness: a concrete call where the stored owner is `pkConst 2` but the
supplied owner account is `userTokenA` (key `pkConst 3`, and even a signer). -/
theorem claim_wrong_owner_illegal_owner_witness :
    process_claim envA programIdA
      [userA, userTokenA, vaultGood, tokenProgA, treasuryPdaA,
        ⟨pkConst 3, 5, [], true⟩, configInited] 9
      = (.error .IllegalOwner, none) :=
  claim_wrong_owner_illegal_owner envA programIdA userA userTokenA vaultGood
    tokenProgA treasuryPdaA ⟨pkConst 3, 5, [], true⟩ configInited [] 9
    (by decide) (by decide) (by decide) (by decide)

/-! ### C3: matching owner without a signature is rejected -/

/-- C3: when the stored owner (first 32 config payload bytes) equals the
supplied owner account's key but that account's signer flag is not set, Claim
fails with `MissingRequiredSignature` and issues no transfer; the signature
gate sits after the owner-equality gate, so identity match alone does not
suffice. -/
theorem claim_unsigned_owner_missing_signature (env : Env) (pid : Pubkey)
    (u uta tta tp tPda ow cfg : AccountInfo) (rest : List AccountInfo) (amount : Nat)
    (h1 : (env.findProgramAddress treasurySeed pid).1 = tPda.key)
    (h2 : cfg.lamports ≠ 0)
    (h3 : SIZE_TREASURY_CONFIG ≤ cfg.data.length)
    (h4 : cfg.data.take 32 = ow.key.val)
    (h5 : ow.isSigner = false) :
    process_claim env pid (u :: uta :: tta :: tp :: tPda :: ow :: cfg :: rest) amount
      = (.error .MissingRequiredSignature, none) := by
  simp only [process_claim]
  rw [if_neg (not_not_intro h1), if_neg h2, if_neg (Nat.not_lt.mpr h3), if_neg h2,
    if_neg (Nat.not_lt.mpr h3)]
  simp only [ownerBytes32_of_le _ h3]
  rw [if_neg (not_not_intro (Subtype.ext h4)), h5]
  rfl

/-- C3 witness: the rightful owner key `pkConst 2` supplied without the
signer flag is rejected with `MissingRequiredSignature`. -/
theorem claim_unsigned_owner_missing_signature_witness :
    process_claim envA programIdA
      [userA, userTokenA, vaultGood, tokenProgA, treasuryPdaA,
        ⟨pkConst 2, 5, [], false⟩, configInited] 9
      = (.error .MissingRequiredSignature, none) :=
  claim_unsigned_owner_missing_signature envA programIdA userA userTokenA vaultGood
    tokenProgA treasuryPdaA ⟨pkConst 2, 5, [], false⟩ configInited [] 9
    (by decide) (by decide) (by decide) (by decide) rfl

/-! ### C4: a vault not controlled by the treasury PDA is rejected -/

/-- C4: when the treasury, config, owner and signature gates all pass but the
unpacked vault account's recorded controller differs from the treasury PDA's
address, Claim fails with `IllegalOwner` and the token-transfer CPI is never
issued (the trace component is `none`). -/
theorem claim_foreign_vault_illegal_owner (env : Env) (pid : Pubkey)
    (u uta tta tp tPda ow cfg : AccountInfo) (rest : List AccountInfo) (amount : Nat)
    (tokenInfo : TokenAccountRec)
    (h1 : (env.findProgramAddress treasurySeed pid).1 = tPda.key)
    (h2 : cfg.lamports ≠ 0)
    (h3 : SIZE_TREASURY_CONFIG ≤ cfg.data.length)
    (h4 : cfg.data.take 32 = ow.key.val)
    (h5 : ow.isSigner = true)
    (h6 : env.unpackTokenAccount tta.data = some tokenInfo)
    (h7 : tokenInfo.owner ≠ tPda.key) :
    process_claim env pid (u :: uta :: tta :: tp :: tPda :: ow :: cfg :: rest) amount
      = (.error .IllegalOwner, none) := by
  simp only [process_claim]
  rw [if_neg (not_not_intro h1), if_neg h2, if_neg (Nat.not_lt.mpr h3), if_neg h2,
    if_neg (Nat.not_lt.mpr h3)]
  simp only [ownerBytes32_of_le _ h3]
  rw [if_neg (not_not_intro (Subtype.ext h4)), h5]
  simp only [Bool.not_true, if_neg (Bool.false_ne_true), h6]
  rw [if_pos h7]

/-- C4 witness: a vault whose first 32 data bytes name `pkConst 6` (not the
treasury PDA `pkConst 7`) is rejected with `IllegalOwner` and no transfer. -/
theorem claim_foreign_vault_illegal_owner_witness :
    process_claim envA programIdA
      [userA, userTokenA, ⟨pkConst 4, 5, List.replicate 32 6, false⟩, tokenProgA,
        treasuryPdaA, ownerSigned, configInited] 9
      = (.error .IllegalOwner, none) :=
  claim_foreign_vault_illegal_owner envA programIdA userA userTokenA
    ⟨pkConst 4, 5, List.replicate 32 6, false⟩ tokenProgA treasuryPdaA ownerSigned
    configInited [] 9 ⟨pkConst 6⟩
    (by decide) (by decide) (by decide) (by decide) rfl (by rfl) (by decide)

/-! ### C1: which address-spoofing attempts are rejected with InvalidSeeds -/

/-- C1 counterexample: a Claim call whose supplied config account sits at
`pkConst 8`, different from the derived config address `pkConst 9`, yet the
handler does not fail with `InvalidSeeds` — it succeeds outright, because
`process_claim` never compares the config account's address to the derived
one. -/
theorem claim_accepts_underived_config_address :
    configWrongAddr.key ≠ (envA.findProgramAddress configSeed programIdA).1 ∧
    (process_claim envA programIdA
      [userA, userTokenA, vaultGood, tokenProgA, treasuryPdaA, ownerSigned,
        configWrongAddr] 5).1 = .ok () :=
  ⟨by decide, rfl⟩

/-- C1 amended: Initialize fails with `InvalidSeeds` when the supplied
treasury address differs from the derived one, and also when the treasury
address is right but the supplied config address differs from the derived
one; Claim fails with `InvalidSeeds` when its supplied treasury address
differs from the derived one (Claim performs no check at all on the supplied
config address). -/
theorem invalid_seeds_rejection (env : Env) (pid : Pubkey)
    (payer tPdaBad tPdaOk sys cfgAny cfgBad : AccountInfo) (irest : List AccountInfo)
    (u uta tta tp ow cfgC : AccountInfo) (crest : List AccountInfo) (amount : Nat)
    (h1 : (env.findProgramAddress treasurySeed pid).1 ≠ tPdaBad.key)
    (h2 : (env.findProgramAddress treasurySeed pid).1 = tPdaOk.key)
    (h3 : (env.findProgramAddress configSeed pid).1 ≠ cfgBad.key) :
    processInitialize env pid (payer :: tPdaBad :: sys :: cfgAny :: irest)
      = .error .InvalidSeeds ∧
    processInitialize env pid (payer :: tPdaOk :: sys :: cfgBad :: irest)
      = .error .InvalidSeeds ∧
    process_claim env pid (u :: uta :: tta :: tp :: tPdaBad :: ow :: cfgC :: crest) amount
      = (.error .InvalidSeeds, none) := by
  refine ⟨?_, ?_, ?_⟩
  · simp only [processInitialize]
    rw [if_pos h1]
  · simp only [processInitialize]
    rw [if_neg (not_not_intro h2), if_pos h3]
  · simp only [process_claim]
    rw [if_pos h1]

/-- C1 amended witness: concrete spoofed addresses (`pkConst 6` for the
treasury, `pkConst 8` for the config) are all rejected with `InvalidSeeds`. -/
theorem invalid_seeds_rejection_witness :
    processInitialize envA programIdA
      [payerA, ⟨pkConst 6, 0, [], false⟩, systemA, configFresh] = .error .InvalidSeeds ∧
    processInitialize envA programIdA
      [payerA, treasuryFresh, systemA, ⟨pkConst 8, 0, [], false⟩] = .error .InvalidSeeds ∧
    process_claim envA programIdA
      [userA, userTokenA, vaultGood, tokenProgA, ⟨pkConst 6, 0, [], false⟩,
        ownerSigned, configInited] 5 = (.error .InvalidSeeds, none) :=
  invalid_seeds_rejection envA programIdA payerA ⟨pkConst 6, 0, [], false⟩
    treasuryFresh systemA configFresh ⟨pkConst 8, 0, [], false⟩ []
    userA userTokenA vaultGood tokenProgA ownerSigned configInited [] 5
    (by decide) (by decide) (by decide)

/-! ### C5: what a second Initialize actually returns -/

/-- C5: a first Initialize succeeds and produces the 40-byte config account
`initOkA.config`; running Initialize again with correctly derived addresses
against that very account returns `InvalidAccountData`, not
`AccountAlreadyInitialized`: Borsh `try_from_slice` rejects the 8 bytes left
over after reading the 32-byte owner, so the source's
`AccountAlreadyInitialized` return on the already-initialized path is
unreachable for the account its own Initialize creates. -/
theorem second_initialize_invalid_account_data :
    processInitialize envA programIdA [payerA, treasuryFresh, systemA, configFresh]
      = .ok initOkA ∧
    initOkA.config.lamports ≠ 0 ∧
    initOkA.config.data.length = 40 ∧
    processInitialize envA programIdA [payerA, treasuryFresh, systemA, initOkA.config]
      = .error .InvalidAccountData :=
  ⟨rfl, by decide, by decide, rfl⟩

/-! ### Inversion of a successful Initialize -/

/-- Writing the config record into the fresh zero-filled config buffer
produces the 32 owner key bytes followed by the remaining 8 zero bytes. -/
lemma serializeConfigInto_fresh (owner : Pubkey) :
    serializeConfigInto owner (List.replicate (8 + SIZE_TREASURY_CONFIG) 0)
      = some (owner.val ++ List.replicate 8 0) := by
  unfold serializeConfigInto SIZE_TREASURY_CONFIG
  rw [if_pos (by simp), List.drop_replicate]

/-- Shape of every successful `processInitialize` run: rent was available,
and the returned treasury account is a zero-filled 16-byte account at the
supplied treasury address while the returned config account holds the
payer's 32 key bytes followed by 8 zero bytes. -/
lemma init_ok_shape (env : Env) (pid : Pubkey)
    (payer tPda sys cfg : AccountInfo) (rest : List AccountInfo) (s : InitOk)
    (h : processInitialize env pid (payer :: tPda :: sys :: cfg :: rest) = .ok s) :
    ∃ mb : Nat → Nat, env.rentResult = .ok mb ∧
      s.treasury = { key := tPda.key, lamports := mb 16,
                     data := List.replicate 16 0, isSigner := tPda.isSigner } ∧
      s.config = { key := cfg.key, lamports := mb 40,
                   data := payer.key.val ++ List.replicate 8 0,
                   isSigner := cfg.isSigner } := by
  simp only [processInitialize] at h
  split at h
  · exact absurd h (by simp)
  split at h
  · exact absurd h (by simp)
  split at h
  next e heq => exact absurd h (by simp)
  next mb heq =>
    refine ⟨mb, heq, ?_⟩
    have hcreate : ∀ hc : Except ProgramError InitOk,
        hc = initCreate env pid payer tPda cfg mb
          (env.findProgramAddress treasurySeed pid).2
          (env.findProgramAddress configSeed pid).2 → hc = .ok s →
        s.treasury = { key := tPda.key, lamports := mb 16,
                       data := List.replicate 16 0, isSigner := tPda.isSigner } ∧
        s.config = { key := cfg.key, lamports := mb 40,
                     data := payer.key.val ++ List.replicate 8 0,
                     isSigner := cfg.isSigner } := by
      intro hc hdef hok
      rw [hdef] at hok
      simp only [initCreate] at hok
      split at hok
      · exact absurd hok (by simp)
      split at hok
      · exact absurd hok (by simp)
      · rw [serializeConfigInto_fresh payer.key] at hok
        have := Except.ok.inj hok
        rw [← this]
        exact ⟨rfl, rfl⟩
    split at h
    · split at h
      · split at h
        · exact absurd h (by simp)
        · exact absurd h (by simp)
      · exact hcreate _ rfl h
    · exact hcreate _ rfl h

/-! ### C7: what a successful Initialize writes -/

/-- C7: every successful Initialize with payer `P` leaves a config account
whose first 32 bytes are exactly `P`'s key (the serialized
`TreasuryConfig { owner: P }`) and a treasury account holding only zero
bytes. -/
theorem initialize_records_payer_and_zero_treasury (env : Env) (pid : Pubkey)
    (payer tPda sys cfg : AccountInfo) (rest : List AccountInfo) (s : InitOk)
    (h : processInitialize env pid (payer :: tPda :: sys :: cfg :: rest) = .ok s) :
    s.config.data.take 32 = payer.key.val ∧ ∀ b ∈ s.treasury.data, b = 0 := by
  obtain ⟨mb, -, ht, hc⟩ := init_ok_shape env pid payer tPda sys cfg rest s h
  constructor
  · rw [hc]
    exact List.take_left' payer.key.2
  · rw [ht]
    intro b hb
    exact List.eq_of_mem_replicate hb

/-- C7 witness: under `envA`, Initialize with payer `pkConst 2` yields
`initOkA`, whose config starts with the payer key and whose treasury data is
all zeros. -/
theorem initialize_records_payer_and_zero_treasury_witness :
    initOkA.config.data.take 32 = payerA.key.val ∧
    ∀ b ∈ initOkA.treasury.data, b = 0 :=
  initialize_records_payer_and_zero_treasury envA programIdA payerA treasuryFresh
    systemA configFresh [] initOkA rfl

/-! ### C8: the actual sizes of the created accounts -/

/-- C8 counterexample: a concrete successful Initialize creates a config
account of 40 data bytes and a treasury account of 16 data bytes — not the
32 and 8 bytes the claim states. -/
theorem account_sizes_counterexample :
    processInitialize envA programIdA [payerA, treasuryFresh, systemA, configFresh]
      = .ok initOkA ∧
    initOkA.config.data.length = 40 ∧ initOkA.treasury.data.length = 16 ∧
    initOkA.config.data.length ≠ 32 ∧ initOkA.treasury.data.length ≠ 8 :=
  ⟨rfl, by decide, by decide, by decide, by decide⟩

/-- C8 amended: Initialize sizes each account to 8 bytes more than its
record: the config account to `8 + 32 = 40` bytes (of which the first 32
hold the owner identity) and the treasury account to `8 + 8 = 16` bytes. -/
theorem initialize_account_sizes (env : Env) (pid : Pubkey)
    (payer tPda sys cfg : AccountInfo) (rest : List AccountInfo) (s : InitOk)
    (h : processInitialize env pid (payer :: tPda :: sys :: cfg :: rest) = .ok s) :
    s.config.data.length = 8 + SIZE_TREASURY_CONFIG ∧
    s.treasury.data.length = 8 + SIZE_TREASURY_STATE := by
  obtain ⟨mb, -, ht, hc⟩ := init_ok_shape env pid payer tPda sys cfg rest s h
  rw [ht, hc]
  constructor
  · have := payer.key.2
    simp only [AccountInfo.data, List.length_append, List.length_replicate, this]
    unfold SIZE_TREASURY_CONFIG
    omega
  · simp only [AccountInfo.data, List.length_replicate]
    unfold SIZE_TREASURY_STATE
    omega

/-- C8 amended witness: the concrete run under `envA` creates accounts of
40 and 16 data bytes. -/
theorem initialize_account_sizes_witness :
    initOkA.config.data.length = 8 + SIZE_TREASURY_CONFIG ∧
    initOkA.treasury.data.length = 8 + SIZE_TREASURY_STATE :=
  initialize_account_sizes envA programIdA payerA treasuryFresh systemA
    configFresh [] initOkA rfl

/-! ### C10: Initialize never authenticates the payer -/

/-- C10: `processInitialize` consults neither the payer's signer flag nor
its key: for an arbitrary first account — any key `payerKey`, any lamports,
any data, any signer flag `sFlag`, in particular `false` — with correctly
derived addresses, an uninitialized config and succeeding external
primitives, the run succeeds and records `payerKey` as the permanent owner
(the first 32 config bytes), with a result that does not depend on
`sFlag`. -/
theorem initialize_no_payer_authentication (env : Env) (pid : Pubkey)
    (payerKey : Pubkey) (pl : Nat) (pd : List Byte) (sFlag : Bool)
    (tPda sys cfg : AccountInfo) (rest : List AccountInfo) (mb : Nat → Nat)
    (h1 : (env.findProgramAddress treasurySeed pid).1 = tPda.key)
    (h2 : (env.findProgramAddress configSeed pid).1 = cfg.key)
    (h3 : cfg.lamports = 0)
    (h4 : env.rentResult = .ok mb)
    (h5 : env.createAccount payerKey tPda.key (mb (8 + SIZE_TREASURY_STATE))
      (8 + SIZE_TREASURY_STATE) pid treasurySeed
      (env.findProgramAddress treasurySeed pid).2 = .ok ())
    (h6 : env.createAccount payerKey cfg.key (mb (8 + SIZE_TREASURY_CONFIG))
      (8 + SIZE_TREASURY_CONFIG) pid configSeed
      (env.findProgramAddress configSeed pid).2 = .ok ()) :
    processInitialize env pid (⟨payerKey, pl, pd, sFlag⟩ :: tPda :: sys :: cfg :: rest)
      = .ok { treasury := { key := tPda.key, lamports := mb (8 + SIZE_TREASURY_STATE),
                            data := List.replicate (8 + SIZE_TREASURY_STATE) 0,
                            isSigner := tPda.isSigner },
              config := { key := cfg.key, lamports := mb (8 + SIZE_TREASURY_CONFIG),
                          data := payerKey.val ++ List.replicate 8 0,
                          isSigner := cfg.isSigner } } := by
  simp only [processInitialize]
  rw [if_neg (not_not_intro h1), if_neg (not_not_intro h2)]
  simp only [h4]
  rw [h3, if_neg (Nat.lt_irrefl 0)]
  simp only [initCreate, h5, h6, serializeConfigInto_fresh]

/-- C10 witness: the payer account is supplied with its signer flag `false`
and an arbitrary key `pkConst 2`; Initialize still succeeds and records that
key as the owner. -/
theorem initialize_no_payer_authentication_witness :
    processInitialize envA programIdA [payerUnsigned, treasuryFresh, systemA, configFresh]
      = .ok { treasury := { key := treasuryFresh.key,
                            lamports := (8 + SIZE_TREASURY_STATE) * 10,
                            data := List.replicate (8 + SIZE_TREASURY_STATE) 0,
                            isSigner := treasuryFresh.isSigner },
              config := { key := configFresh.key,
                          lamports := (8 + SIZE_TREASURY_CONFIG) * 10,
                          data := (pkConst 2).val ++ List.replicate 8 0,
                          isSigner := configFresh.isSigner } } :=
  initialize_no_payer_authentication envA programIdA (pkConst 2) 1000 [] false
    treasuryFresh systemA configFresh [] (fun space => space * 10)
    (by decide) (by decide) rfl rfl rfl rfl

/-! ### C6: the dispatcher decodes and routes -/

/-- A third tag byte, recognized by no instruction. -/
def tag2 : Byte := ⟨2, by norm_num⟩

lemma tryFromSlice_tag1 (rest : List Byte) :
    TreasuryInstruction.tryFromSlice (tag1 :: rest)
      = if rest.length = 8 then some (.Claim (leU64 rest)) else none := rfl

lemma tryFromSlice_eq_none (d : List Byte)
    (h0 : d ≠ [tag0])
    (h1 : ∀ rest, rest.length = 8 → d ≠ tag1 :: rest) :
    TreasuryInstruction.tryFromSlice d = none := by
  match d with
  | [] => rfl
  | tag :: rest =>
    simp only [TreasuryInstruction.tryFromSlice]
    split_ifs with ht0 he ht1 hlen
    · exact absurd (by rw [show tag = tag0 from Fin.ext ht0,
        List.isEmpty_iff.mp he]) h0
    · rfl
    · exact absurd (by rw [show tag = tag1 from Fin.ext ht1]) (h1 rest hlen)
    · rfl
    · rfl

/-- C6: the dispatcher recognizes exactly the two Borsh encodings — the
single byte 0 is `Initialize` and is routed to `processInitialize` whose
result is returned unchanged; a byte 1 followed by exactly 8 bytes is
`Claim` with the little-endian amount and is routed to `process_claim`
whose result is returned unchanged; every other byte buffer fails with
`InvalidInstructionData`, and the dispatcher itself contributes no effect. -/
theorem dispatcher_decode_and_route (env : Env) (pid : Pubkey)
    (accounts : List AccountInfo) (data : List Byte) :
    (data = [tag0] →
      process_instruction env pid accounts data
        = initResult (processInitialize env pid accounts)) ∧
    (∀ rest, rest.length = 8 → data = tag1 :: rest →
      process_instruction env pid accounts data
        = process_claim env pid accounts (leU64 rest)) ∧
    (data ≠ [tag0] → (∀ rest, rest.length = 8 → data ≠ tag1 :: rest) →
      process_instruction env pid accounts data
        = (.error .InvalidInstructionData, none)) := by
  refine ⟨fun h => ?_, fun rest hlen h => ?_, fun h0 h1 => ?_⟩
  · subst h; rfl
  · subst h
    simp only [process_instruction, tryFromSlice_tag1, if_pos hlen]
  · simp only [process_instruction, tryFromSlice_eq_none data h0 h1]

/-- C6 witness: the concrete buffers `[0]`, `[1, 9,0,0,0,0,0,0,0]` and `[2]`
are respectively routed to Initialize, routed to Claim with amount 9, and
rejected with `InvalidInstructionData`. -/
theorem dispatcher_decode_and_route_witness :
    process_instruction envA programIdA [] [tag0]
      = initResult (processInitialize envA programIdA []) ∧
    process_instruction envA programIdA []
        (tag1 :: ⟨9, by norm_num⟩ :: List.replicate 7 tag0)
      = process_claim envA programIdA []
          (leU64 (⟨9, by norm_num⟩ :: List.replicate 7 tag0)) ∧
    process_instruction envA programIdA [] [tag2]
      = (.error .InvalidInstructionData, none) := by
  refine ⟨?_, ?_, ?_⟩
  · exact (dispatcher_decode_and_route envA programIdA [] [tag0]).1 rfl
  · exact (dispatcher_decode_and_route envA programIdA []
      (tag1 :: ⟨9, by norm_num⟩ :: List.replicate 7 tag0)).2.1
      (⟨9, by norm_num⟩ :: List.replicate 7 tag0) (by decide) rfl
  · refine (dispatcher_decode_and_route envA programIdA [] [tag2]).2.2 (by decide) ?_
    intro rest h8 heq
    obtain ⟨-, hrest⟩ := List.cons.inj heq
    rw [← hrest] at h8
    exact absurd h8 (by decide)

/-! ### C9: the duplicated config checks are redundant -/

/-- C9: the single-check variant of the claim handler is extensionally equal
to `process_claim` on every environment, program id, account list and
amount: the repeated config existence and length checks add no semantics. -/
theorem claim_single_check_equiv (env : Env) (pid : Pubkey)
    (accounts : List AccountInfo) (amount : Nat) :
    process_claim_single_check env pid accounts amount
      = process_claim env pid accounts amount := by
  rcases accounts with _ | ⟨a1, _ | ⟨a2, _ | ⟨a3, _ | ⟨a4, _ | ⟨a5, _ | ⟨a6, _ | ⟨a7, rest⟩⟩⟩⟩⟩⟩⟩
  · rfl
  · rfl
  · rfl
  · rfl
  · rfl
  · rfl
  · rfl
  · simp only [process_claim, process_claim_single_check]
    split_ifs <;> rfl

end KaiquestTreasury
